import Mathlib

/-!
# Verification of `train.py` (gpt2-papers)

A shallow embedding of the single script `src/train.py`: a GPT-2
fine-tuning launcher that builds three hardcoded configuration bundles,
loads a pretrained tokenizer/model pair, adds one separator special
token, resizes the embedding table, builds train/eval datasets, delegates
training and evaluation to an external `Trainer`, derives perplexity from
the evaluation loss, writes a results file and forwards metrics to an
external tracking service (`wandb`).

The script itself is pure orchestration: every external collaborator
(HuggingFace registry, dataset constructors, `Trainer`, the filesystem
clock, `wandb`) is modelled by an `Oracle` that supplies the responses
and wall-clock durations of the external calls.  Running `main` against
an oracle produces the ordered trace of external effects (`Event`), an
optional uncaught Python exception, and the final tokenizer/model state.

Numeric scalars are embedded as `ℚ`.  The one transcendental operation,
`math.exp`, is kept symbolic (`Val.exp`) so that the whole run stays
computable; `Val.toReal` interprets values into `ℝ` for exactness
statements, and CPython's `OverflowError` for arguments beyond
`log(DBL_MAX)` is modelled explicitly.
-/

namespace GPT2Papers

/-! ## Scalar values

Values flowing to the results file and the metrics service. `Val.q x` is
a plain numeric value; `Val.exp x` is the (exactly represented) result of
`math.exp x` when no overflow occurs. -/

inductive Val where
  | q (x : ℚ)
  | exp (x : ℚ)
deriving DecidableEq, Repr

/-- Interpretation of a value as a real number: `Val.exp x` denotes eˣ. -/
noncomputable def Val.toReal : Val → ℝ
  | .q x => (x : ℝ)
  | .exp x => Real.exp (x : ℝ)

/-- Uncaught Python exceptions that can escape `main`. -/
inductive PyErr where
  | overflow
  | keyError (key : String)
deriving DecidableEq, Repr

/-- CPython `math.exp` raises `OverflowError` once the argument exceeds
`log(DBL_MAX) ≈ 709.7827128933841`; below that it returns the
exponential (kept exact/symbolic here). -/
def expOverflowCutoff : ℚ :=
  Rat.mk' 7097827128933841 10000000000000 (by decide) (by decide)

/-- Model of `math.exp` (line 195 applies it to the evaluation loss). -/
def mathExp (x : ℚ) : Except PyErr Val :=
  if x ≤ expOverflowCutoff then .ok (.exp x) else .error .overflow

/-! ## Configuration bundles (train.py lines 36, 59-104) -/

/-- Line 36: `sep = "<|sep|>"`. -/
def sep : String := "<|sep|>"

/-- Model arguments `defaultdict` (lines 59-65). -/
structure ModelArgs where
  config_name : Option String
  model_name_or_path : String
  model_type : String
  tokenizer_name : Option String
  cache_dir : Option String
deriving DecidableEq, Repr

/-- Data arguments `defaultdict` (lines 67-75). -/
structure DataArgs where
  train_data_file : String
  eval_data_file : String
  line_by_line : Bool
  mlm : Bool
  mlm_probability : ℚ
  block_size : ℕ
  overwrite_cache : Bool
deriving DecidableEq, Repr

/-- `TrainingArguments` (lines 77-104); only fields the script itself
constructs, kept verbatim. -/
structure TrainingArgs where
  output_dir : String
  overwrite_output_dir : Bool
  do_train : Bool
  do_eval : Bool
  do_predict : Bool
  evaluate_during_training : Bool
  per_gpu_train_batch_size : ℕ
  per_gpu_eval_batch_size : ℕ
  gradient_accumulation_steps : ℕ
  learning_rate : ℚ
  weight_decay : ℚ
  adam_epsilon : ℚ
  max_grad_norm : ℚ
  num_train_epochs : ℚ
  max_steps : ℤ
  warmup_steps : ℕ
  logging_dir : Option String
  logging_first_step : Bool
  logging_steps : ℕ
  save_steps : ℕ
  save_total_limit : ℕ
  no_cuda : Bool
  seed : ℕ
  fp16 : Bool
  fp16_opt_level : String
  local_rank : ℤ
deriving DecidableEq, Repr

/-- Lines 59-65. -/
def model_args : ModelArgs :=
  { config_name := none
    model_name_or_path := "gpt2"
    model_type := "gpt2"
    tokenizer_name := none
    cache_dir := none }

/-- Lines 67-75. -/
def data_args : DataArgs :=
  { train_data_file := "/data/train.txt"
    eval_data_file := "/data/eval.txt"
    line_by_line := false
    mlm := false
    mlm_probability := 0.15
    block_size := 512
    overwrite_cache := false }

/-- Lines 77-104. -/
def training_args : TrainingArgs :=
  { output_dir := "/gpt2"
    overwrite_output_dir := true
    do_train := true
    do_eval := true
    do_predict := false
    evaluate_during_training := true
    per_gpu_train_batch_size := 1
    per_gpu_eval_batch_size := 1
    gradient_accumulation_steps := 1
    learning_rate := 0.00005
    weight_decay := 0
    adam_epsilon := 0.00000001
    max_grad_norm := 1
    num_train_epochs := 5
    max_steps := -1
    warmup_steps := 0
    logging_dir := none
    logging_first_step := false
    logging_steps := 10000
    save_steps := 10000
    save_total_limit := 10
    no_cuda := false
    seed := 42
    fp16 := false
    fp16_opt_level := "O1"
    local_rank := -1 }

/-! ## Tokenizer and model state -/

/-- The tokenizer state the script observes: its vocabulary.
`len(tokenizer)` is the vocabulary size. -/
structure Tokenizer where
  vocab : List String
deriving DecidableEq, Repr

/-- Python `len(tokenizer)`. -/
def Tokenizer.len (t : Tokenizer) : ℕ := t.vocab.length

/-- `tokenizer.add_special_tokens({"sep_token": sep})` (line 143): the
token is appended to the vocabulary unless already present. -/
def Tokenizer.add_special_tokens (t : Tokenizer) (tok : String) : Tokenizer :=
  if tok ∈ t.vocab then t else ⟨t.vocab ++ [tok]⟩

/-- The model state the script observes: the row count of its token
embedding table. -/
structure Model where
  emb_rows : ℕ
deriving DecidableEq, Repr

/-- `model.resize_token_embeddings(n)` (line 144). -/
def Model.resize_token_embeddings (_m : Model) (n : ℕ) : Model := ⟨n⟩

/-! ## `get_dataset` (lines 39-48) -/

/-- The external dataset-constructor call `get_dataset` delegates to:
either `LineByLineTextDataset(...)` or `TextDataset(...)`, with the
keyword arguments the script passes. -/
inductive DatasetCall where
  | lineByLine (tokenizer : Tokenizer) (file_path : String) (block_size : ℕ)
  | textDataset (tokenizer : Tokenizer) (file_path : String) (block_size : ℕ)
deriving DecidableEq, Repr

def DatasetCall.file_path : DatasetCall → String
  | .lineByLine _ p _ => p
  | .textDataset _ p _ => p

def DatasetCall.tokenizer : DatasetCall → Tokenizer
  | .lineByLine t _ _ => t
  | .textDataset t _ _ => t

def DatasetCall.block_size : DatasetCall → ℕ
  | .lineByLine _ _ b => b
  | .textDataset _ _ b => b

/-- `true` iff the call went to the line-by-line constructor. -/
def DatasetCall.isLineByLine : DatasetCall → Bool
  | .lineByLine _ _ _ => true
  | .textDataset _ _ _ => false

/-- Lines 39-48 of `train.py`, verbatim. -/
def get_dataset (args : DataArgs) (tokenizer : Tokenizer)
    (evalFlag : Bool := false) : DatasetCall :=
  let file_path := if evalFlag then args.eval_data_file else args.train_data_file
  if args.line_by_line then
    .lineByLine tokenizer file_path args.block_size
  else
    .textDataset tokenizer file_path args.block_size

/-! ## Effect trace -/

/-- One observable external effect of the script, in program order. -/
inductive Event where
  | setSeed (n : ℕ)
  | loadConfig (name : String)
  | loadTokenizer (name : String)
  | loadModel (name : String)
  | addSpecialTokens (tok : String)
  | resizeEmb (rows : ℕ)
  | buildDataset (c : DatasetCall)
  | buildCollator (mlm : Bool) (mlm_probability : ℚ)
  | initTrainer (train_dataset : Option DatasetCall) (eval_dataset : Option DatasetCall)
  | trainCall (model_path : Option String)
  | saveModel
  | saveTokenizer (dir : String)
  | printTrainingTook (hours : ℚ)
  | evaluateCall
  | writeFile (path : String) (lines : List (String × Val))
  | wandbLog (entries : List (String × Val))
deriving DecidableEq, Repr

/-- Responses and wall-clock durations of the external collaborators.
Each `dur_*` field is the wall-clock time consumed inside the
correspondingly named external call; `timer()` reads the clock obtained
by accumulating these durations in program order. -/
structure Oracle where
  /-- vocabulary of the tokenizer as loaded from the pretrained checkpoint -/
  vocab : List String
  /-- row count of the loaded model's embedding table -/
  pretrained_emb_rows : ℕ
  /-- `os.path.isdir` -/
  isdir : String → Bool
  /-- `trainer.is_world_master()` -/
  is_world_master : Bool
  /-- clock value at the start of the run -/
  t0 : ℚ
  dur_load_config : ℚ
  dur_load_tokenizer : ℚ
  dur_load_model : ℚ
  dur_build_train_dataset : ℚ
  dur_build_eval_dataset : ℚ
  dur_train : ℚ
  dur_save_model : ℚ
  dur_save_tokenizer : ℚ
  dur_evaluate : ℚ
  /-- `trainer.train(...).training_loss` -/
  training_loss : ℚ
  /-- the metrics dict returned by `trainer.evaluate()` -/
  eval_output : List (String × ℚ)

/-- Result of a run: the trace of external effects executed (up to the
point of an uncaught exception, if any), the exception, and the final
tokenizer/model state. -/
structure RunResult where
  events : List Event
  err : Option PyErr
  tokenizer : Tokenizer
  model : Model

/-- Whether a string begins with the path separator `/`. -/
def startsWithSlash (s : String) : Bool :=
  match s.data with
  | [] => false
  | c :: _ => c = '/'

/-- Whether a string ends with the path separator `/`. -/
def endsWithSlash (s : String) : Bool :=
  match s.data.getLast? with
  | some c => c = '/'
  | none => false

/-- `os.path.join` for the two-argument POSIX cases the script uses. -/
def osPathJoin (a b : String) : String :=
  if startsWithSlash b then b
  else if a = "" then b
  else if endsWithSlash a then a ++ b
  else a ++ "/" ++ b

/-- The body of the results-file loop (lines 202-204):
`for key in sorted(result.keys()): writer.write("%s = %s\n" % (key, str(result[key])))`.
Each returned pair `(key, v)` stands for the line `key = str(v)`.
The `getD` default is dead code: every key iterated is drawn from
`result` itself. -/
def writeLoop (result : List (String × Val)) : List (String × Val) :=
  ((result.map Prod.fst).mergeSort (fun a b => a ≤ b)).map
    (fun key => (key, (result.lookup key).getD (.q 0)))

/-- Lines 106-211 of `train.py`: everything `main` does after the three
configuration bundles are built, parameterised (as the source text is,
through the `training_args` object constructed at lines 77-104) by the
training arguments, and run against an oracle for the external world. -/
def mainBody (targs : TrainingArgs) (o : Oracle) : RunResult :=
  -- line 126: set_seed(training_args.seed)
  let clock := o.t0
  -- lines 129-140: AutoConfig / AutoTokenizer / AutoModelWithLMHead .from_pretrained
  let clock := clock + o.dur_load_config + o.dur_load_tokenizer + o.dur_load_model
  let tokenizer : Tokenizer := ⟨o.vocab⟩
  let model : Model := ⟨o.pretrained_emb_rows⟩
  -- lines 143-144: add the separator token, resize the embedding table
  let tokenizer := tokenizer.add_special_tokens sep
  let model := model.resize_token_embeddings tokenizer.len
  -- lines 147-155: conditional dataset construction
  let train_dataset := if targs.do_train then some (get_dataset data_args tokenizer) else none
  let clock := clock + (if targs.do_train then o.dur_build_train_dataset else 0)
  let eval_dataset := if targs.do_eval then some (get_dataset data_args tokenizer true) else none
  let clock := clock + (if targs.do_eval then o.dur_build_eval_dataset else 0)
  -- lines 173-178: resume path
  let model_path :=
    if o.isdir model_args.model_name_or_path then some model_args.model_name_or_path else none
  -- lines 181-183: start = timer(); trainer.train(model_path=model_path); end = timer()
  let start := clock
  let clock := clock + o.dur_train
  let endT := clock
  let train_results_loss := o.training_loss
  -- lines 184-186: save model, and tokenizer on the world master
  let clock := clock + o.dur_save_model
  let clock := clock + (if o.is_world_master then o.dur_save_tokenizer else 0)
  -- line 189: print(f"Training took {(end - start) / 3600} hours.")
  -- lines 192-194: evaluate
  let clock := clock + o.dur_evaluate
  let _ := clock
  let trace : List Event :=
    [.setSeed targs.seed,
     .loadConfig model_args.model_name_or_path,
     .loadTokenizer model_args.model_name_or_path,
     .loadModel model_args.model_name_or_path,
     .addSpecialTokens sep,
     .resizeEmb tokenizer.len]
    ++ (match train_dataset with | some c => [.buildDataset c] | none => [])
    ++ (match eval_dataset with | some c => [.buildDataset c] | none => [])
    ++ [.buildCollator data_args.mlm data_args.mlm_probability,
        .initTrainer train_dataset eval_dataset,
        .trainCall model_path,
        .saveModel]
    ++ (if o.is_world_master then [.saveTokenizer targs.output_dir] else [])
    ++ [.printTrainingTook ((endT - start) / 3600),
        .evaluateCall]
  -- line 195: perplexity = math.exp(eval_output["eval_loss"])
  match o.eval_output.lookup "eval_loss" with
  | none => ⟨trace, some (.keyError "eval_loss"), tokenizer, model⟩
  | some loss =>
    match mathExp loss with
    | .error e => ⟨trace, some e, tokenizer, model⟩
    | .ok perplexity =>
      -- lines 196-211
      let result : List (String × Val) := [("perplexity", perplexity)]
      let output_eval_file := osPathJoin targs.output_dir "eval_results_lm.txt"
      ⟨trace
        ++ [.writeFile output_eval_file (writeLoop result)]
        ++ [.wandbLog [("train_loss", .q train_results_loss)],
            .wandbLog [("eval_loss", .q loss)],
            .wandbLog result,
            .wandbLog [("train_time", .q ((endT - start) / 3600))]],
       none, tokenizer, model⟩

/-- `main()` as the script runs it: `mainBody` applied to the hardcoded
`training_args` bundle. -/
def main (o : Oracle) : RunResult := mainBody training_args o

/-! ## Trace observations -/

/-- The files written during a trace, in order: path and line contents. -/
def writtenFiles (tr : List Event) : List (String × List (String × Val)) :=
  tr.filterMap fun e => match e with
    | .writeFile p lines => some (p, lines)
    | _ => none

/-- Number of `trainer.evaluate()` invocations in a trace. -/
def evaluateCalls (tr : List Event) : ℕ :=
  tr.countP fun e => match e with
    | .evaluateCall => true
    | _ => false

/-- The `model_path` arguments of the `trainer.train` invocations. -/
def trainCallArgs (tr : List Event) : List (Option String) :=
  tr.filterMap fun e => match e with
    | .trainCall mp => some mp
    | _ => none

/-- The dictionaries sent to `wandb.log`, in order. -/
def wandbEntries (tr : List Event) : List (List (String × Val)) :=
  tr.filterMap fun e => match e with
    | .wandbLog entries => some entries
    | _ => none

/-- The external dataset-constructor invocations in a trace, in order. -/
def datasetCalls (tr : List Event) : List DatasetCall :=
  tr.filterMap fun e => match e with
    | .buildDataset c => some c
    | _ => none

/-- The training-time figures (in hours) printed to stdout, in order. -/
def printedHours (tr : List Event) : List ℚ :=
  tr.filterMap fun e => match e with
    | .printTrainingTook h => some h
    | _ => none

/-- The `eval_dataset` arguments given to the `Trainer` constructor. -/
def trainerEvalDatasets (tr : List Event) : List (Option DatasetCall) :=
  tr.filterMap fun e => match e with
    | .initTrainer _ ed => some ed
    | _ => none

/-! ## Filesystem semantics for the results file -/

/-- Text files addressed by path; content is the list of
`key = value` lines. -/
def FileSystem := String → Option (List (String × Val))

/-- Effect of one event on the filesystem: `open(path, "w")` followed by
the writes truncates whatever was there and leaves exactly the new
lines; no other event touches text files. -/
def applyEvent (fs : FileSystem) (e : Event) : FileSystem :=
  match e with
  | .writeFile p lines => fun q => if q = p then some lines else fs q
  | _ => fs

/-- Filesystem after running a whole trace. -/
def runFS (fs : FileSystem) (tr : List Event) : FileSystem :=
  tr.foldl applyEvent fs

/-! ## Event classifiers -/

def Event.isAddSpecialTokens : Event → Bool
  | .addSpecialTokens _ => true
  | _ => false

def Event.isResizeEmb : Event → Bool
  | .resizeEmb _ => true
  | _ => false

def Event.isBuildDataset : Event → Bool
  | .buildDataset _ => true
  | _ => false

def Event.isTrainCall : Event → Bool
  | .trainCall _ => true
  | _ => false

/-! ## Concrete instantiation data -/

/-- A concrete oracle: the trainer reports an evaluation loss of `0` next
to a raw runtime metric, the model name resolves to no local directory,
and training consumes 7200 s of wall clock. -/
def sampleOracle : Oracle :=
  { vocab := ["hello", "world"]
    pretrained_emb_rows := 2
    isdir := fun _ => false
    is_world_master := false
    t0 := 5
    dur_load_config := 1
    dur_load_tokenizer := 1
    dur_load_model := 1
    dur_build_train_dataset := 2
    dur_build_eval_dataset := 2
    dur_train := 7200
    dur_save_model := 3
    dur_save_tokenizer := 3
    dur_evaluate := 4
    training_loss := 2
    eval_output := [("eval_loss", 0), ("eval_runtime", 5)] }

/-- The same oracle, but the trainer reports an evaluation loss of
`1000`, far beyond the overflow threshold of `math.exp`. -/
def hugeLossOracle : Oracle :=
  { sampleOracle with eval_output := [("eval_loss", 1000)] }

/-- The hardcoded training arguments with `do_eval` switched off. -/
def noEvalArgs : TrainingArgs :=
  { training_args with do_eval := false }

/-! ## Theorems -/

/-- C7: for every data configuration, tokenizer and evaluate flag,
`get_dataset` selects the eval data file path when the evaluate flag is
set and the train data file path otherwise, delegates to exactly one of
the two external dataset constructors (line-by-line iff the
`line_by_line` flag is true), and passes that path, the tokenizer and
the configured block size. -/
theorem get_dataset_contract (args : DataArgs) (tok : Tokenizer) (evalFlag : Bool) :
    (get_dataset args tok evalFlag).file_path
        = (if evalFlag then args.eval_data_file else args.train_data_file)
    ∧ (get_dataset args tok evalFlag).isLineByLine = args.line_by_line
    ∧ (get_dataset args tok evalFlag).tokenizer = tok
    ∧ (get_dataset args tok evalFlag).block_size = args.block_size := by
  unfold get_dataset
  rcases h : args.line_by_line <;>
    simp [h, DatasetCall.file_path, DatasetCall.isLineByLine,
      DatasetCall.tokenizer, DatasetCall.block_size]

/-- C9: the behaviour of `get_dataset` is independent of the data
configuration's `overwrite_cache` flag: replacing the flag by any value
leaves the external constructor call (constructor choice and all
arguments) unchanged, so two configurations differing only in
`overwrite_cache` produce identical calls. -/
theorem get_dataset_independent_of_overwrite_cache
    (args : DataArgs) (tok : Tokenizer) (evalFlag b : Bool) :
    get_dataset { args with overwrite_cache := b } tok evalFlag
      = get_dataset args tok evalFlag := rfl

/-- C10: the configured model name is the hardcoded `"gpt2"`, and `main`
passes it as `model_path` to the trainer's `train` call exactly when
`os.path.isdir` says it is an existing local directory; otherwise the
`model_path` argument is `None`. -/
theorem train_model_path_only_for_existing_dir (o : Oracle) :
    model_args.model_name_or_path = "gpt2"
    ∧ trainCallArgs (main o).events
        = [if o.isdir model_args.model_name_or_path then some model_args.model_name_or_path
           else none] := by
  refine ⟨rfl, ?_⟩
  unfold main mainBody trainCallArgs
  rcases hl : o.eval_output.lookup "eval_loss" with _ | loss
  · rcases hw : o.is_world_master <;> simp [hl, hw, training_args]
  · by_cases hc : loss ≤ expOverflowCutoff <;> rcases hw : o.is_world_master <;>
      simp [hl, hw, hc, mathExp, training_args]

/-- C1 fails on the code: with `do_eval` set to `false` (and the other
training arguments as hardcoded), `main` still invokes the trainer's
`evaluate` entry point and still derives and reports a perplexity
value. -/
theorem do_eval_false_evaluation_still_occurs :
    evaluateCalls (mainBody noEvalArgs sampleOracle).events = 1
    ∧ [("perplexity", Val.exp 0)] ∈ wandbEntries (mainBody noEvalArgs sampleOracle).events
    ∧ (writtenFiles (mainBody noEvalArgs sampleOracle).events).map Prod.fst
        = ["/gpt2/eval_results_lm.txt"] := by
  refine ⟨by decide, by decide, ?_⟩
  unfold mainBody writtenFiles
  simp [noEvalArgs, training_args, sampleOracle, mathExp, osPathJoin,
    startsWithSlash, endsWithSlash, List.lookup,
    show (0 : ℚ) ≤ expOverflowCutoff from by decide]

/-- C1, amended: the `do_eval` flag only controls whether an eval dataset
is constructed (the trainer receives `None` when it is false); the
evaluation call itself is unconditional, and whenever the returned
evaluation loss is present and below the overflow threshold a perplexity
is still derived and written. -/
theorem do_eval_false_still_evaluates (targs : TrainingArgs) (o : Oracle) (loss : ℚ)
    (hev : targs.do_eval = false)
    (hl : o.eval_output.lookup "eval_loss" = some loss)
    (hc : loss ≤ expOverflowCutoff) :
    evaluateCalls (mainBody targs o).events = 1
    ∧ trainerEvalDatasets (mainBody targs o).events = [none]
    ∧ [("perplexity", Val.exp loss)] ∈ wandbEntries (mainBody targs o).events := by
  unfold mainBody evaluateCalls trainerEvalDatasets wandbEntries
  rcases ht : targs.do_train <;> rcases hw : o.is_world_master <;>
    simp [hev, ht, hw, hl, hc, mathExp]

theorem do_eval_false_still_evaluates_witness :
    noEvalArgs.do_eval = false
    ∧ sampleOracle.eval_output.lookup "eval_loss" = some 0
    ∧ (0 : ℚ) ≤ expOverflowCutoff
    ∧ (evaluateCalls (mainBody noEvalArgs sampleOracle).events = 1
        ∧ trainerEvalDatasets (mainBody noEvalArgs sampleOracle).events = [none]
        ∧ [("perplexity", Val.exp 0)] ∈ wandbEntries (mainBody noEvalArgs sampleOracle).events) :=
  ⟨by decide, by decide, by decide,
    do_eval_false_still_evaluates noEvalArgs sampleOracle 0 (by decide) (by decide) (by decide)⟩

/-- C8: the perplexity computation performs no bounds-checking: whenever
the trainer returns an evaluation loss beyond the overflow threshold of
`math.exp`, the resulting `OverflowError` escapes `main` uncaught — the
evaluation call has happened, but the run aborts before the results file
is written or any metric is sent to the tracking service. -/
theorem exp_overflow_uncaught_aborts (o : Oracle) (loss : ℚ)
    (hl : o.eval_output.lookup "eval_loss" = some loss)
    (hc : ¬ loss ≤ expOverflowCutoff) :
    (main o).err = some PyErr.overflow
    ∧ evaluateCalls (main o).events = 1
    ∧ writtenFiles (main o).events = []
    ∧ wandbEntries (main o).events = [] := by
  unfold main mainBody evaluateCalls writtenFiles wandbEntries
  rcases hw : o.is_world_master <;> simp [hl, hc, hw, mathExp, training_args]

theorem exp_overflow_uncaught_aborts_witness :
    hugeLossOracle.eval_output.lookup "eval_loss" = some 1000
    ∧ ¬ (1000 : ℚ) ≤ expOverflowCutoff
    ∧ ((main hugeLossOracle).err = some PyErr.overflow
        ∧ evaluateCalls (main hugeLossOracle).events = 1
        ∧ writtenFiles (main hugeLossOracle).events = []
        ∧ wandbEntries (main hugeLossOracle).events = []) :=
  ⟨by decide, by decide,
    exp_overflow_uncaught_aborts hugeLossOracle 1000 (by decide) (by decide)⟩

/-- C2: for every evaluation result returned by the trainer (with a loss
below the overflow threshold of `math.exp`), the perplexity `main`
reports — as the results-file line and in the metrics-service report —
is exactly the exponential of the returned evaluation loss; in
particular a loss of exactly `0` yields a perplexity of exactly `1`. -/
theorem perplexity_is_exp_of_eval_loss (o : Oracle) (loss : ℚ)
    (hl : o.eval_output.lookup "eval_loss" = some loss)
    (hc : loss ≤ expOverflowCutoff) :
    writtenFiles (main o).events
        = [("/gpt2/eval_results_lm.txt", [("perplexity", Val.exp loss)])]
    ∧ [("perplexity", Val.exp loss)] ∈ wandbEntries (main o).events
    ∧ Val.toReal (Val.exp loss) = Real.exp ((loss : ℝ))
    ∧ (loss = 0 → Val.toReal (Val.exp loss) = 1) := by
  refine ⟨?_, ?_, rfl, ?_⟩
  · unfold main mainBody writtenFiles
    rcases hw : o.is_world_master <;>
      simp [hl, hc, hw, mathExp, training_args, writeLoop,
        osPathJoin, startsWithSlash, endsWithSlash]
  · unfold main mainBody wandbEntries
    rcases hw : o.is_world_master <;>
      simp [hl, hc, hw, mathExp, training_args]
  · rintro rfl
    simp [Val.toReal]

theorem perplexity_is_exp_of_eval_loss_witness :
    sampleOracle.eval_output.lookup "eval_loss" = some 0
    ∧ (0 : ℚ) ≤ expOverflowCutoff
    ∧ (writtenFiles (main sampleOracle).events
          = [("/gpt2/eval_results_lm.txt", [("perplexity", Val.exp 0)])]
        ∧ [("perplexity", Val.exp 0)] ∈ wandbEntries (main sampleOracle).events
        ∧ Val.toReal (Val.exp 0) = Real.exp (((0 : ℚ) : ℝ))
        ∧ ((0 : ℚ) = 0 → Val.toReal (Val.exp 0) = 1)) :=
  ⟨by decide, by decide,
    perplexity_is_exp_of_eval_loss sampleOracle 0 (by decide) (by decide)⟩

/-- C6: the training time `main` prints and sends to the metrics service
as `train_time` is exactly the wall clock consumed between the two
`timer()` reads that bracket the `trainer.train` call — that is,
`dur_train / 3600` hours, with the durations of model/tokenizer saving
and of evaluation contributing nothing to it. -/
theorem train_time_excludes_save_and_evaluate (o : Oracle) (loss : ℚ)
    (hl : o.eval_output.lookup "eval_loss" = some loss)
    (hc : loss ≤ expOverflowCutoff) :
    printedHours (main o).events = [o.dur_train / 3600]
    ∧ [("train_time", Val.q (o.dur_train / 3600))] ∈ wandbEntries (main o).events := by
  constructor
  · unfold main mainBody printedHours
    rcases hw : o.is_world_master <;>
      simp [hl, hc, hw, mathExp, training_args]
  · unfold main mainBody wandbEntries
    rcases hw : o.is_world_master <;>
      simp [hl, hc, hw, mathExp, training_args]

theorem train_time_excludes_save_and_evaluate_witness :
    sampleOracle.eval_output.lookup "eval_loss" = some 0
    ∧ (0 : ℚ) ≤ expOverflowCutoff
    ∧ (printedHours (main sampleOracle).events = [sampleOracle.dur_train / 3600]
        ∧ [("train_time", Val.q (sampleOracle.dur_train / 3600))]
            ∈ wandbEntries (main sampleOracle).events) :=
  ⟨by decide, by decide,
    train_time_excludes_save_and_evaluate sampleOracle 0 (by decide) (by decide)⟩

/-- C5 fails on the code: the results file contains only the derived
perplexity line; the raw metrics returned by the trainer (here
`eval_loss` and `eval_runtime`) are not written to it. -/
theorem results_file_omits_raw_metrics :
    writtenFiles (main sampleOracle).events
        = [("/gpt2/eval_results_lm.txt", [("perplexity", Val.exp 0)])]
    ∧ "eval_loss" ∈ sampleOracle.eval_output.map Prod.fst
    ∧ "eval_runtime" ∈ sampleOracle.eval_output.map Prod.fst
    ∧ "eval_loss" ∉ ([("perplexity", Val.exp 0)] : List (String × Val)).map Prod.fst
    ∧ "eval_runtime" ∉ ([("perplexity", Val.exp 0)] : List (String × Val)).map Prod.fst := by
  refine ⟨?_, by decide, by decide, by decide, by decide⟩
  unfold main mainBody writtenFiles
  simp [sampleOracle, training_args, mathExp, writeLoop, List.lookup,
    osPathJoin, startsWithSlash, endsWithSlash,
    show (0 : ℚ) ≤ expOverflowCutoff from by decide]

/-- C5, amended: the results text file receives only the derived
perplexity; the raw evaluation metrics are not written to it (the raw
evaluation loss is instead sent to the metrics service). -/
theorem results_file_contains_only_perplexity (o : Oracle) (loss : ℚ)
    (hl : o.eval_output.lookup "eval_loss" = some loss)
    (hc : loss ≤ expOverflowCutoff) :
    writtenFiles (main o).events
        = [("/gpt2/eval_results_lm.txt", [("perplexity", Val.exp loss)])]
    ∧ [("eval_loss", Val.q loss)] ∈ wandbEntries (main o).events := by
  constructor
  · unfold main mainBody writtenFiles
    rcases hw : o.is_world_master <;>
      simp [hl, hc, hw, mathExp, training_args, writeLoop,
        osPathJoin, startsWithSlash, endsWithSlash]
  · unfold main mainBody wandbEntries
    rcases hw : o.is_world_master <;>
      simp [hl, hc, hw, mathExp, training_args]

theorem results_file_contains_only_perplexity_witness :
    sampleOracle.eval_output.lookup "eval_loss" = some 0
    ∧ (0 : ℚ) ≤ expOverflowCutoff
    ∧ (writtenFiles (main sampleOracle).events
          = [("/gpt2/eval_results_lm.txt", [("perplexity", Val.exp 0)])]
        ∧ [("eval_loss", Val.q 0)] ∈ wandbEntries (main sampleOracle).events) :=
  ⟨by decide, by decide,
    results_file_contains_only_perplexity sampleOracle 0 (by decide) (by decide)⟩

/-- C3: adding the separator special token grows the tokenizer's
vocabulary by exactly one entry (whenever the separator is not already
in the pretrained vocabulary), the embedding table is resized to exactly
the new vocabulary size, and both mutations precede every dataset
construction and the training call in the effect trace — indeed the
constructed datasets already receive the extended tokenizer. -/
theorem sep_token_mutations_before_datasets_and_train (o : Oracle)
    (h : sep ∉ o.vocab) :
    (main o).tokenizer.vocab.length = o.vocab.length + 1
    ∧ (main o).model.emb_rows = (main o).tokenizer.vocab.length
    ∧ datasetCalls (main o).events
        = [get_dataset data_args ⟨o.vocab ++ [sep]⟩,
           get_dataset data_args ⟨o.vocab ++ [sep]⟩ true]
    ∧ (main o).events.findIdx Event.isAddSpecialTokens = 4
    ∧ (main o).events.findIdx Event.isResizeEmb = 5
    ∧ (main o).events.findIdx Event.isBuildDataset = 6
    ∧ (main o).events.findIdx Event.isTrainCall = 10 := by
  unfold main mainBody datasetCalls
  rcases hl : o.eval_output.lookup "eval_loss" with _ | loss
  · rcases hw : o.is_world_master <;>
      simp [hl, hw, training_args, h, Tokenizer.add_special_tokens, Tokenizer.len,
        Model.resize_token_embeddings, List.findIdx_cons,
        Event.isAddSpecialTokens, Event.isResizeEmb, Event.isBuildDataset, Event.isTrainCall]
  · by_cases hc : loss ≤ expOverflowCutoff <;> rcases hw : o.is_world_master <;>
      simp [hl, hc, hw, mathExp, training_args, h, Tokenizer.add_special_tokens, Tokenizer.len,
        Model.resize_token_embeddings, List.findIdx_cons,
        Event.isAddSpecialTokens, Event.isResizeEmb, Event.isBuildDataset, Event.isTrainCall]

theorem sep_token_mutations_before_datasets_and_train_witness :
    sep ∉ sampleOracle.vocab
    ∧ ((main sampleOracle).tokenizer.vocab.length = sampleOracle.vocab.length + 1
        ∧ (main sampleOracle).model.emb_rows = (main sampleOracle).tokenizer.vocab.length
        ∧ datasetCalls (main sampleOracle).events
            = [get_dataset data_args ⟨sampleOracle.vocab ++ [sep]⟩,
               get_dataset data_args ⟨sampleOracle.vocab ++ [sep]⟩ true]
        ∧ (main sampleOracle).events.findIdx Event.isAddSpecialTokens = 4
        ∧ (main sampleOracle).events.findIdx Event.isResizeEmb = 5
        ∧ (main sampleOracle).events.findIdx Event.isBuildDataset = 6
        ∧ (main sampleOracle).events.findIdx Event.isTrainCall = 10) :=
  ⟨by decide,
    sep_token_mutations_before_datasets_and_train sampleOracle (by decide)⟩

/-! ### Results-file rendering lemmas -/

theorem writeLoop_keys (result : List (String × Val)) :
    (writeLoop result).map Prod.fst
      = (result.map Prod.fst).mergeSort (fun a b => a ≤ b) := by
  simp [writeLoop, List.map_map, Function.comp_def]

theorem sorted_string_mergeSort (l : List String) :
    (l.mergeSort (fun a b => a ≤ b)).Sorted (· ≤ ·) := by
  have h : (l.mergeSort (fun a b => a ≤ b)).Pairwise (fun a b => (decide (a ≤ b)) = true) :=
    List.sorted_mergeSort
      (fun a b c hab hbc => by
        simp only [decide_eq_true_eq] at hab hbc ⊢
        exact le_trans hab hbc)
      (fun a b => by simpa [Bool.or_eq_true, decide_eq_true_eq] using le_total a b) l
  exact h.imp (fun hab => by simpa using hab)

theorem lookup_nodup_iff_mem {l : List (String × Val)}
    (hnd : (l.map Prod.fst).Nodup) {k : String} {v : Val} :
    l.lookup k = some v ↔ (k, v) ∈ l := by
  induction l with
  | nil => simp
  | cons p t ih =>
    obtain ⟨a, b⟩ := p
    simp only [List.map_cons, List.nodup_cons, List.mem_map] at hnd
    by_cases hk : k = a
    · subst hk
      simp only [List.lookup_cons_self, Option.some_inj, List.mem_cons, Prod.mk.injEq, true_and]
      constructor
      · rintro rfl
        exact Or.inl rfl
      · rintro (rfl | hm)
        · rfl
        · exact absurd ⟨(k, v), hm, rfl⟩ hnd.1
    · have hbeq : (k == a) = false := by simpa using hk
      simp [List.lookup_cons, hbeq, ih hnd.2, hk]

theorem lookup_eq_of_perm {la lr : List (String × Val)} (hp : la.Perm lr)
    (hnd : (lr.map Prod.fst).Nodup) (k : String) :
    la.lookup k = lr.lookup k := by
  have hnda : (la.map Prod.fst).Nodup := ((hp.map Prod.fst).nodup_iff).mpr hnd
  cases hr : lr.lookup k with
  | some v =>
    exact (lookup_nodup_iff_mem hnda).mpr (hp.mem_iff.mpr ((lookup_nodup_iff_mem hnd).mp hr))
  | none =>
    cases ha : la.lookup k with
    | none => rfl
    | some v =>
      have hm := hp.mem_iff.mp ((lookup_nodup_iff_mem hnda).mp ha)
      have := List.lookup_eq_none_iff.mp hr _ hm
      simp at this

theorem mergeSort_eq_of_perm {la lr : List String} (hp : la.Perm lr) :
    la.mergeSort (fun a b => a ≤ b) = lr.mergeSort (fun a b => a ≤ b) := by
  refine List.eq_of_perm_of_sorted ?_ (sorted_string_mergeSort la) (sorted_string_mergeSort lr)
  exact (List.mergeSort_perm la _).trans (hp.trans (List.mergeSort_perm lr _).symm)

/-- C4: the results file holds exactly one `key = value` line per metric
of the result mapping, with the keys in ascending lexicographic order
and independent of the mapping's insertion order; and because the fixed
path is opened in write mode, the final filesystem holds exactly the
freshly rendered lines at that path no matter what file was there
before. -/
theorem results_file_sorted_lines_overwrite
    (result alt : List (String × Val)) (fs : FileSystem) (o : Oracle) (loss : ℚ)
    (hnd : (result.map Prod.fst).Nodup)
    (hperm : alt.Perm result)
    (hl : o.eval_output.lookup "eval_loss" = some loss)
    (hc : loss ≤ expOverflowCutoff) :
    (writeLoop result).length = result.length
    ∧ (∀ kv ∈ result, kv ∈ writeLoop result)
    ∧ ((writeLoop result).map Prod.fst).Sorted (· ≤ ·)
    ∧ writeLoop alt = writeLoop result
    ∧ runFS fs (main o).events "/gpt2/eval_results_lm.txt"
        = some [("perplexity", Val.exp loss)] := by
  refine ⟨by simp [writeLoop], ?_, ?_, ?_, ?_⟩
  · rintro ⟨k, v⟩ hm
    have hk : k ∈ (result.map Prod.fst).mergeSort (fun a b => a ≤ b) := by
      simpa using List.mem_map_of_mem Prod.fst hm
    exact List.mem_map.mpr ⟨k, hk, by simp [(lookup_nodup_iff_mem hnd).mpr hm]⟩
  · rw [writeLoop_keys]
    exact sorted_string_mergeSort _
  · unfold writeLoop
    rw [mergeSort_eq_of_perm (hperm.map Prod.fst)]
    exact List.map_congr_left (fun k _ => by rw [lookup_eq_of_perm hperm hnd])
  · unfold main mainBody runFS
    rcases hw : o.is_world_master <;>
      simp [hl, hc, hw, mathExp, training_args, applyEvent, writeLoop,
        osPathJoin, startsWithSlash, endsWithSlash]

theorem results_file_sorted_lines_overwrite_witness :
    (([("b", Val.q 1), ("a", Val.q 2)].map Prod.fst).Nodup
      ∧ ([("a", Val.q 2), ("b", Val.q 1)] : List (String × Val)).Perm [("b", Val.q 1), ("a", Val.q 2)]
      ∧ sampleOracle.eval_output.lookup "eval_loss" = some 0
      ∧ (0 : ℚ) ≤ expOverflowCutoff)
    ∧ ((writeLoop [("b", Val.q 1), ("a", Val.q 2)]).length
          = ([("b", Val.q 1), ("a", Val.q 2)] : List (String × Val)).length
        ∧ (∀ kv ∈ ([("b", Val.q 1), ("a", Val.q 2)] : List (String × Val)),
            kv ∈ writeLoop [("b", Val.q 1), ("a", Val.q 2)])
        ∧ ((writeLoop [("b", Val.q 1), ("a", Val.q 2)]).map Prod.fst).Sorted (· ≤ ·)
        ∧ writeLoop [("a", Val.q 2), ("b", Val.q 1)] = writeLoop [("b", Val.q 1), ("a", Val.q 2)]
        ∧ runFS (fun _ => none) (main sampleOracle).events "/gpt2/eval_results_lm.txt"
            = some [("perplexity", Val.exp 0)]) :=
  ⟨⟨by decide, List.Perm.swap ("b", Val.q 1) ("a", Val.q 2) [], by decide, by decide⟩,
    results_file_sorted_lines_overwrite [("b", Val.q 1), ("a", Val.q 2)]
      [("a", Val.q 2), ("b", Val.q 1)] (fun _ => none) sampleOracle 0
      (by decide) (List.Perm.swap ("b", Val.q 1) ("a", Val.q 2) []) (by decide) (by decide)⟩

end GPT2Papers
